import Mathlib

set_option linter.unusedVariables false

/-!
Shallow embedding of `mcts_general/game.py` (pmfurlong/mcts-general).

Modelling conventions:
* Python floats are modelled by `ℚ` (all arithmetic in the file is exact:
  sums, means, clipping, sign tests).
* A gymnasium environment is an external collaborator; it is modelled as a
  record of pure functions over an abstract state type `σ`:
  `stepFn` returns the gymnasium 5-tuple
  `(next state, observation, reward, terminated, truncated)` (the `info`
  dict is dropped, the source never reads it), and `seedFn` models
  `env.seed(s)` exposed by the `DeepCopyableWrapper` adapter.
* `numpy.random` is a single process-global generator: `DeepCopyableGame.__init__`
  does `self.rand = numpy.random`, so every instance's `self.rand` is the same
  module object. We model the generator as an abstract interface `RNGModel`
  over a state type `ρ`, and thread ONE `ρ` value globally through all
  operations (per-instance game records deliberately hold no generator state,
  because the source gives them none).
* Fallible Python code (tuple-unpacking arity errors, list indexing,
  division by zero) is modelled with `Except PyError`.
-/

/-- Observations: gymnasium observations are numeric arrays; the source only
ever destructures them as sequences of floats (`[cos_theta, sin_theta,
theta_dot]`), so a list of rationals suffices. -/
abbrev Obs := List ℚ

/-- Python's `int(x)` on a float/rational: truncation toward zero. -/
def pyInt (q : ℚ) : ℤ :=
  q.num.tdiv q.den

/-- The Python runtime errors the embedded code can raise. -/
inductive PyError where
  | valueError
  | zeroDivisionError
  | indexError
  deriving DecidableEq

/-- Python list indexing `xs[i]`: nonnegative indexes from the front, negative
indexes from the back, anything out of range raises `IndexError`. -/
def pyIndex {α : Type} (xs : List α) (i : ℤ) : Except PyError α :=
  if 0 ≤ i ∧ i < (xs.length : ℤ) then
    match xs.get? i.toNat with
    | some v => .ok v
    | none => .error .indexError
  else if -(xs.length : ℤ) ≤ i ∧ i < 0 then
    match xs.get? (i + (xs.length : ℤ)).toNat with
    | some v => .ok v
    | none => .error .indexError
  else
    .error .indexError

/-- External discrete-action environment (a gymnasium env with
`Discrete(n)` action space, wrapped in `DeepCopyableWrapper`).
`stepFn` is the 5-tuple API `(state, obs, reward, terminated, truncated)`;
`seedFn` is the wrapper's `seed`. -/
structure DiscreteEnv (σ : Type) where
  n : ℕ
  stepFn : σ → ℤ → σ × Obs × ℚ × Bool × Bool
  seedFn : ℤ → σ → σ

/-- External continuous-action environment (a gymnasium env with a bounded
`Box` action space). `low`/`high` are the first components of
`action_space.low` / `action_space.high` — the source always extracts
component `[0]` of the clipped action. -/
structure ContinuousEnv (σ : Type) where
  low : ℚ
  high : ℚ
  stepFn : σ → ℚ → σ × Obs × ℚ × Bool × Bool
  seedFn : ℤ → σ → σ

/-- The process-global `numpy.random` generator, as the interface of draws the
source uses: `seed`, `randint(1e9)`, legacy `random_integers(lo, hi)`
(inclusive on both ends), and `normal(mu, sigma)`.  `ρ` is the generator's
internal state. -/
structure RNGModel (ρ : Type) where
  seed : ℤ → ρ
  randint : ℕ → ρ → ℕ × ρ
  randomIntegers : ℕ → ℕ → ρ → ℕ × ρ
  normal : ℚ → ℚ → ρ → ℚ × ρ

variable {σ ρ : Type}

/-- The mutable data of a `DiscreteGymGame` object: the wrapped env's state and
the stored private seed (`DeepCopyableGame.__seed`).  Note there is NO
generator state here: `self.rand = numpy.random` is global. -/
structure DiscreteGameState (σ : Type) where
  envState : σ
  seed : ℤ

/-- `GymGame.step` (game.py lines 97-100): one `env.step`, merging
`terminated or truncated` into a single `done`.  Returns
`(new env state, (obs, reward, done))`. -/
def GymGame.stepImpl (env : DiscreteEnv σ) (s : σ) (a : ℤ) : σ × Obs × ℚ × Bool :=
  (((env.stepFn s a).1, (env.stepFn s a).2.1, (env.stepFn s a).2.2.1,
    (env.stepFn s a).2.2.2.1 || (env.stepFn s a).2.2.2.2))

/-- `DiscreteGymGame.step` (lines 131-134): coerces the action with
`int(action)`, then defers to `GymGame.step`. -/
def DiscreteGymGame.stepImpl (env : DiscreteEnv σ) (s : σ) (a : ℚ) : σ × Obs × ℚ × Bool :=
  GymGame.stepImpl env s (pyInt a)

/-- `DiscreteGymGame.legal_actions` (line 136-137): `[0, …, n-1]`,
independent of the `simulation` flag. -/
def DiscreteGymGame.legalActions (env : DiscreteEnv σ) (simulation : Bool) : List ℕ :=
  List.range env.n

/-- `DiscreteGymGame.sample_action` (lines 139-141):
`legal_actions[self.rand.random_integers(0, len(legal_actions) - 1)]`.
`self.rand` is the global generator; `random_integers` is inclusive on both
ends, so the index is always in range when `n ≥ 1` (we use `getD` for the
list subscript under that contract). -/
def DiscreteGymGame.sampleAction (env : DiscreteEnv σ) (rng : RNGModel ρ) (r : ρ)
    (simulation : Bool) : ℕ × ρ :=
  ((DiscreteGymGame.legalActions env simulation).getD
      (rng.randomIntegers 0 ((DiscreteGymGame.legalActions env simulation).length - 1) r).1 0,
    (rng.randomIntegers 0 ((DiscreteGymGame.legalActions env simulation).length - 1) r).2)

/-- The constructor chain `DiscreteGymGame.__init__` → `GymGame.__init__` →
`DeepCopyableGame.__init__` (lines 25-27, 84-87, 127-129): wraps the env,
stores the seed in `self.__seed` — and does NOT reseed the generator (the
global generator state `r` is returned untouched). -/
def GymGame.mkGame (envState : σ) (seed : ℤ) (r : ρ) : DiscreteGameState σ × ρ :=
  ({ envState := envState, seed := seed }, r)

/-- `GymGame.set_seed` (lines 117-119) followed by
`DeepCopyableGame.set_seed` (lines 72-75): seeds the env, reseeds the
(global) generator and stores the seed. -/
def GymGame.setSeed (env : DiscreteEnv σ) (rng : RNGModel ρ) (g : DiscreteGameState σ)
    (r : ρ) (s : ℤ) : DiscreteGameState σ × ρ :=
  ({ envState := env.seedFn s g.envState, seed := s }, rng.seed s)

/-- `DiscreteGymGame.get_copy` (lines 143-144):
`DiscreteGymGame(deepcopy(self.env), self.rand.randint(1e9))`.
`deepcopy` gives value-copy semantics on the env state; the fresh seed is
drawn from the global generator (advancing it). -/
def DiscreteGymGame.getCopy (rng : RNGModel ρ) (g : DiscreteGameState σ) (r : ρ) :
    DiscreteGameState σ × ρ :=
  ({ envState := g.envState, seed := Int.ofNat (rng.randint 1000000000 r).1 },
    (rng.randint 1000000000 r).2)

/-! ### Continuous games -/

/-- The mutable data of a `ContinuousGymGame` (lines 150-155): env state,
stored seed and the `(mu, sigma)` sampling parameters. -/
structure ContGameState (σ : Type) where
  envState : σ
  seed : ℤ
  mu : ℚ
  sigma : ℚ

/-- `ContinuousGymGame.legal_actions` (lines 157-158):
the `[low, high]` bound pair (not an enumerable choice set). -/
def ContinuousGymGame.legalActions (env : ContinuousEnv σ) (simulation : Bool) : List ℚ :=
  [env.low, env.high]

/-- `numpy.clip(x, lo, hi)` = `minimum(maximum(x, lo), hi)`. -/
def npClip (x lo hi : ℚ) : ℚ :=
  min (max x lo) hi

/-- `ContinuousGymGame.sample_action` (lines 160-162):
`numpy.clip(numpy.random.normal(self.mu, self.sigma), legal[0], legal[1])[0]`.
The draw goes through `numpy.random` directly — the same global generator as
`self.rand`. -/
def ContinuousGymGame.sampleAction (env : ContinuousEnv σ) (rng : RNGModel ρ)
    (g : ContGameState σ) (r : ρ) (simulation : Bool) : ℚ × ρ :=
  (npClip (rng.normal g.mu g.sigma r).1
      ((ContinuousGymGame.legalActions env simulation).getD 0 0)
      ((ContinuousGymGame.legalActions env simulation).getD 1 0),
    (rng.normal g.mu g.sigma r).2)

/-- `ContinuousGymGame.get_copy` (lines 164-165): deep-copies the env and
passes the same `mu`, `sigma`; seed freshly drawn from the global
generator. -/
def ContinuousGymGame.getCopy (rng : RNGModel ρ) (g : ContGameState σ) (r : ρ) :
    ContGameState σ × ρ :=
  ({ envState := g.envState, seed := Int.ofNat (rng.randint 1000000000 r).1,
      mu := g.mu, sigma := g.sigma },
    (rng.randint 1000000000 r).2)

/-! ### Macro-action games -/

/-- The mutable data of a `GymGameWithMacroActions` (lines 171-178): env state,
stored seed, and the `_macro_actions` table (a list of primitive-action
sequences; entries are floats, e.g. `numpy.ones(n) * action`). -/
structure MacroGameState (σ : Type) where
  envState : σ
  seed : ℤ
  macroActions : List (List ℚ)

/-- `GymGameWithMacroActions.legal_actions` (lines 180-186): in simulation the
indexes of the macro actions, otherwise the indexes of the env's primitive
actions.  Note: with an empty macro-action table and `simulation=True` this
returns the empty list normally — the source has no exception path here. -/
def GymGameWithMacroActions.legalActions (env : DiscreteEnv σ) (g : MacroGameState σ)
    (simulation : Bool) : List ℕ :=
  if simulation then List.range g.macroActions.length else List.range env.n

/-- `GymGameWithMacroActions.step` (lines 188-202).  Both branches unpack the
result of `super().step(...)` as `obs, rew, done, _` — four names — but
`DiscreteGymGame.step`/`GymGame.step` return the THREE-tuple
`(obs, rew, done)` (lines 97-100, 131-134), so the unpacking raises
`ValueError` after the inner `env.step` has already advanced `self.env`.
Simulation branch, in source order: `mac_act = self.macro_actions[action]`
(Python list indexing; out of range raises `IndexError`); if `mac_act` is
empty the `for` loop is skipped and `reward /= len(mac_act)` raises
`ZeroDivisionError`; otherwise the first loop iteration advances the env by
one primitive step and then the 4-name unpacking raises.  Returns the
post-call object state together with the raised error / the (never reached)
normal result. -/
def GymGameWithMacroActions.stepM (env : DiscreteEnv σ) (g : MacroGameState σ)
    (action : ℤ) (simulation : Bool) :
    MacroGameState σ × Except PyError (Obs × ℚ × Bool) :=
  if simulation then
    match pyIndex g.macroActions action with
    | .error e => (g, .error e)
    | .ok macAct =>
      match macAct with
      | [] => (g, .error .zeroDivisionError)
      | a :: _ =>
        ({ g with envState := (DiscreteGymGame.stepImpl env g.envState a).1 },
          .error .valueError)
  else
    ({ g with envState := (DiscreteGymGame.stepImpl env g.envState (action : ℚ)).1 },
      .error .valueError)

/-- `GymGameWithMacroActions.get_copy` (lines 204-209): deep-copies the env,
draws a fresh seed from the global generator, passes the same macro-action
table. -/
def GymGameWithMacroActions.getCopy (rng : RNGModel ρ) (g : MacroGameState σ) (r : ρ) :
    MacroGameState σ × ρ :=
  ({ envState := g.envState, seed := Int.ofNat (rng.randint 1000000000 r).1,
      macroActions := g.macroActions },
    (rng.randint 1000000000 r).2)

/-- The mutable data of a `GymGameDoingMultipleStepsInSimulations`
(lines 212-219): env state, stored seed, and the repetition count
`self.n`. -/
structure MultiStepsState (σ : Type) where
  envState : σ
  seed : ℤ
  n : ℕ

/-- The macro-action table `GymGameDoingMultipleStepsInSimulations.__init__`
computes (line 218): `[numpy.ones(self.n) * action for action in
self.legal_actions()]`, i.e. each primitive action repeated `n` times. -/
def GymGameDoingMultipleStepsInSimulations.macroTable (env : DiscreteEnv σ)
    (g : MultiStepsState σ) : List (List ℚ) :=
  (List.range env.n).map (fun a => List.replicate g.n ((a : ℚ)))

/-- `GymGameDoingMultipleStepsInSimulations.get_copy` (lines 221-226):
deep-copies the env, draws a fresh seed, passes the same repetition count
`n` (the constructor then rebuilds the same macro table from `n`). -/
def GymGameDoingMultipleStepsInSimulations.getCopy (rng : RNGModel ρ)
    (g : MultiStepsState σ) (r : ρ) : MultiStepsState σ × ρ :=
  ({ envState := g.envState, seed := Int.ofNat (rng.randint 1000000000 r).1, n := g.n },
    (rng.randint 1000000000 r).2)

/-- The mutable data of a `PendulumGameWithEngineeredMacroActions`
(lines 229-238): env state, stored seed, and the configuration
`(num_actions, action_damping, max_macro_action_len)`.  Its stored
`_macro_actions` table is the empty list (line 238); the usable table is the
derived property below. -/
structure PendulumState (σ : Type) where
  envState : σ
  seed : ℤ
  nAct : ℕ
  damping : ℚ
  maxLen : ℕ

/-- An engineered-macro-action game viewed as its parent class: same env
state and seed, `_macro_actions = []` as passed by `__init__` (line 238). -/
def PendulumState.asMacroGame (g : PendulumState σ) : MacroGameState σ :=
  { envState := g.envState, seed := g.seed, macroActions := [] }

/-- `PendulumGameWithEngineeredMacroActions.get_copy` (lines 254-260): a new
instance with the same `num_actions`, `action_damping`,
`max_macro_action_len`, a freshly drawn seed, and `copy.env` replaced by
`deepcopy(self.env)`. -/
def PendulumGameWithEngineeredMacroActions.getCopy (rng : RNGModel ρ)
    (g : PendulumState σ) (r : ρ) : PendulumState σ × ρ :=
  ({ envState := g.envState, seed := Int.ofNat (rng.randint 1000000000 r).1,
      nAct := g.nAct, damping := g.damping, maxLen := g.maxLen },
    (rng.randint 1000000000 r).2)

/-- `numpy.sign` on a rational. -/
def ratSign (q : ℚ) : ℚ :=
  if q < 0 then -1 else if q = 0 then 0 else 1

/-- The `while` loop of the `macro_actions` property (lines 248-250): keep
executing the same primitive action while the sign of `theta_dot` equals the
initial `sign`, `it <= max_macro_action_len`, and `not done`; each body
iteration takes one step (which can raise), destructures the observation as
`[cos_theta, sin_theta, theta_dot]` (anything but a 3-element observation
raises `ValueError`), and increments `it`.  Returns the final `it`. -/
def PendulumGameWithEngineeredMacroActions.discoverLoop (env : DiscreteEnv σ)
    (maxLen : ℕ) (action : ℤ) (gc : MacroGameState σ) (sgn : ℚ) (thetaDot : ℚ)
    (done : Bool) (it : ℕ) : Except PyError ℕ :=
  if h : sgn = ratSign thetaDot ∧ it ≤ maxLen ∧ done = false then
    match GymGameWithMacroActions.stepM env gc action false with
    | (_, .error e) => .error e
    | (gc2, .ok (obs, _, d2)) =>
      match obs with
      | [_, _, td] =>
        PendulumGameWithEngineeredMacroActions.discoverLoop env maxLen action gc2
          sgn td d2 (it + 1)
      | _ => .error .valueError
  else
    .ok it
termination_by maxLen + 1 - it
decreasing_by
  obtain ⟨h1, h2, h3⟩ := h
  omega

/-- One iteration of the `for action in ...` loop of the `macro_actions`
property (lines 243-251): make a disposable copy (drawing a seed from the
global generator), take one step with `action` on the copy (this is
`GymGameWithMacroActions.step` with `simulation=False`, which raises),
destructure the observation, run the `while` loop, and freeze
`numpy.ones(it) * action`.  Returns the advanced global generator state and
the discovered sequence or the raised error. -/
def PendulumGameWithEngineeredMacroActions.discoverOne (env : DiscreteEnv σ)
    (rng : RNGModel ρ) (g : PendulumState σ) (action : ℤ) (r : ρ) :
    ρ × Except PyError (List ℚ) :=
  match GymGameWithMacroActions.stepM env
      (PendulumGameWithEngineeredMacroActions.getCopy rng g r).1.asMacroGame action false with
  | (_, .error e) => ((PendulumGameWithEngineeredMacroActions.getCopy rng g r).2, .error e)
  | (gc2, .ok (obs, _, d)) =>
    match obs with
    | [_, _, td] =>
      match PendulumGameWithEngineeredMacroActions.discoverLoop env g.maxLen action gc2
          (ratSign td) td d 1 with
      | .error e => ((PendulumGameWithEngineeredMacroActions.getCopy rng g r).2, .error e)
      | .ok it =>
        ((PendulumGameWithEngineeredMacroActions.getCopy rng g r).2,
          .ok (List.replicate it ((action : ℚ))))
    | _ => ((PendulumGameWithEngineeredMacroActions.getCopy rng g r).2, .error .valueError)

/-- The `for` loop of the `macro_actions` property over the primitive
actions, accumulating the discovered sequences; an exception aborts the
whole property. -/
def PendulumGameWithEngineeredMacroActions.discoverAll (env : DiscreteEnv σ)
    (rng : RNGModel ρ) (g : PendulumState σ) :
    List ℤ → ρ → List (List ℚ) → ρ × Except PyError (List (List ℚ))
  | [], r, acc => (r, .ok acc)
  | a :: rest, r, acc =>
    match PendulumGameWithEngineeredMacroActions.discoverOne env rng g a r with
    | (r2, .error e) => (r2, .error e)
    | (r2, .ok ma) =>
      PendulumGameWithEngineeredMacroActions.discoverAll env rng g rest r2 (acc ++ [ma])

/-- The derived `macro_actions` property of
`PendulumGameWithEngineeredMacroActions` (lines 240-252): recomputed on every
access, iterating over `super().legal_actions(simulation=False)` =
`range(self.env.action_space.n)`. -/
def PendulumGameWithEngineeredMacroActions.macroActionsProp (env : DiscreteEnv σ)
    (rng : RNGModel ρ) (g : PendulumState σ) (r : ρ) :
    ρ × Except PyError (List (List ℚ)) :=
  PendulumGameWithEngineeredMacroActions.discoverAll env rng g
    ((List.range env.n).map Int.ofNat) r []

/-! ### The object world: heap of env states plus the global generator

Python objects are references to mutable state.  To state aliasing /
independence properties honestly we model a small world: a heap of env
states addressed by naturals (`deepcopy` allocates a fresh cell holding a
value copy), and the single global `numpy.random` state. -/

structure World (σ ρ : Type) where
  heap : ℕ → σ
  next : ℕ
  rand : ρ

/-- Overwrite the env state stored at address `i`. -/
def World.write (w : World σ ρ) (i : ℕ) (v : σ) : World σ ρ :=
  { w with heap := fun j => if j = i then v else w.heap j }

/-- `DiscreteGymGame.step` acting on the game object at address `g`: read its
env state, take one primitive step, write the new env state back.  Uses no
randomness. -/
def DiscreteGymGame.stepW (env : DiscreteEnv σ) (w : World σ ρ) (g : ℕ) (a : ℚ) :
    (Obs × ℚ × Bool) × World σ ρ :=
  ((DiscreteGymGame.stepImpl env (w.heap g) a).2,
    World.write w g (DiscreteGymGame.stepImpl env (w.heap g) a).1)

/-- `DiscreteGymGame.legal_actions` on the object at address `g`: depends only
on the env's action-space descriptor. -/
def DiscreteGymGame.legalActionsW (env : DiscreteEnv σ) (w : World σ ρ) (g : ℕ)
    (simulation : Bool) : List ℕ :=
  DiscreteGymGame.legalActions env simulation

/-- `DiscreteGymGame.get_copy` on the object at address `g`: draw the copy's
seed from the global generator, `deepcopy` the env state into a fresh heap
cell (address `w.next` — no aliasing with any live cell).  Returns
`((copy's address, copy's seed), new world)`. -/
def DiscreteGymGame.getCopyW (rng : RNGModel ρ) (w : World σ ρ) (g : ℕ) :
    (ℕ × ℤ) × World σ ρ :=
  ((w.next, Int.ofNat (rng.randint 1000000000 w.rand).1),
    { heap := fun j => if j = w.next then w.heap g else w.heap j,
      next := w.next + 1,
      rand := (rng.randint 1000000000 w.rand).2 })

/-- `DiscreteGymGame.sample_action` on the object at address `g`: the draw
reads and advances the GLOBAL generator state `w.rand` (`self.rand` is the
`numpy.random` module, shared by every instance); the object's own fields
play no part in the draw beyond the env's action-space size. -/
def DiscreteGymGame.sampleW (env : DiscreteEnv σ) (rng : RNGModel ρ) (w : World σ ρ)
    (g : ℕ) (simulation : Bool) : ℕ × World σ ρ :=
  ((DiscreteGymGame.sampleAction env rng w.rand simulation).1,
    { w with rand := (DiscreteGymGame.sampleAction env rng w.rand simulation).2 })

/-- `GymGame.set_seed` on the object at address `g`: seeds the env state and
reseeds the GLOBAL generator. -/
def GymGame.setSeedW (env : DiscreteEnv σ) (rng : RNGModel ρ) (w : World σ ρ) (g : ℕ)
    (s : ℤ) : World σ ρ :=
  { World.write w g (env.seedFn s (w.heap g)) with rand := rng.seed s }

/-! ### Concrete instances for witnesses and counterexamples -/

/-- A tiny deterministic stand-in for the global generator, used to evaluate
the theorems on concrete inputs: the state is a counter, `seed s` sets it to
`s.toNat`, every draw advances it by one. -/
def natRng : RNGModel ℕ where
  seed s := s.toNat
  randint m r := (r % m, r + 1)
  randomIntegers lo hi r := (lo + r % (hi + 1 - lo), r + 1)
  normal mu sigma r := (mu + sigma * (r : ℚ), r + 1)

/-- A concrete 2-action environment over counter states: stepping increments
the state, reward 1, terminates (done) once the counter reaches 2. -/
def envA : DiscreteEnv ℕ where
  n := 2
  stepFn s _ := (s + 1, [(s : ℚ) + 1], 1, decide (s + 1 ≥ 2), false)
  seedFn _ s := s

/-- A concrete 3-action environment over counter states, never done. -/
def envB : DiscreteEnv ℕ where
  n := 3
  stepFn s a := (s + 1, [(s : ℚ), (a : ℚ)], (a : ℚ), false, false)
  seedFn _ s := s

/-- A concrete continuous environment with bounds `[-2, 2]`. -/
def envC : ContinuousEnv ℕ where
  low := -2
  high := 2
  stepFn s _ := (s + 1, [(s : ℚ)], 0, false, false)
  seedFn _ s := s

/-! ### C5: reproducibility of `set_seed` + `sample_action` -/

/-- C5: for every game `g` and seed `s`, running `g.set_seed(s); o1 =
g.sample_action()` and then `g.set_seed(s); o2 = g.sample_action()` yields
`o1 == o2`: both draws are made from the generator state `rng.seed s`
produced by `set_seed`, so they are equal for every environment and every
generator implementation. -/
theorem C5_reproducible (env : DiscreteEnv σ) (rng : RNGModel ρ)
    (g : DiscreteGameState σ) (r : ρ) (s : ℤ) :
    (DiscreteGymGame.sampleAction env rng (GymGame.setSeed env rng g r s).2 false).1 =
      (DiscreteGymGame.sampleAction env rng
        (GymGame.setSeed env rng
          (GymGame.setSeed env rng g r s).1
          (DiscreteGymGame.sampleAction env rng (GymGame.setSeed env rng g r s).2 false).2
          s).2 false).1 := by
  rfl

/-! ### C7: stored seed vs generator seeding -/

/-- The stored seed and the global generator agree: the generator state is
exactly what seeding it with the stored seed produces. -/
def SeedAgrees (rng : RNGModel ρ) (g : DiscreteGameState σ) (r : ρ) : Prop :=
  r = rng.seed g.seed

/-- C7 counterexample: construct a game with seed 5 while the global
generator was last seeded with 7 (`DeepCopyableGame.__init__` stores
`self.__seed = seed` but never calls `self.rand.seed`, lines 25-27), and the
stored seed disagrees with the generator's seeding immediately after
construction — refuting the claim's "including the state immediately after
construction with a seed". -/
theorem C7_counterexample :
    ¬ SeedAgrees natRng (GymGame.mkGame (0 : ℕ) 5 (natRng.seed 7)).1
        (GymGame.mkGame (0 : ℕ) 5 (natRng.seed 7)).2 := by
  unfold SeedAgrees
  decide

/-- C7 amended: `set_seed(s)` does atomically both store `s` and reseed the
generator with `s` (lines 72-75 and 117-119), so immediately after any
`set_seed` the stored seed and the generator's seeding agree; but
construction with a seed only stores it without touching the generator, so
the claimed invariant fails right after `__init__`. -/
theorem C7_setSeed_atomic (env : DiscreteEnv σ) (rng : RNGModel ρ)
    (g : DiscreteGameState σ) (r : ρ) (s : ℤ) :
    (GymGame.setSeed env rng g r s).1.seed = s ∧
      SeedAgrees rng (GymGame.setSeed env rng g r s).1 (GymGame.setSeed env rng g r s).2 := by
  exact ⟨rfl, rfl⟩

/-! ### C9: continuous sampling is clamped into the bounds -/

/-- C9: for a continuous-action game with bounds `[low, high]` (with
`low ≤ high`), every value `sample_action` returns lies in the closed
interval `[low, high]` — for every draw of the underlying Normal
distribution, i.e. for every generator implementation and state: the draw is
passed through `numpy.clip(·, low, high)`. -/
theorem C9_sample_clamped (env : ContinuousEnv σ) (rng : RNGModel ρ)
    (g : ContGameState σ) (r : ρ) (simulation : Bool)
    (h : env.low ≤ env.high) :
    env.low ≤ (ContinuousGymGame.sampleAction env rng g r simulation).1 ∧
      (ContinuousGymGame.sampleAction env rng g r simulation).1 ≤ env.high := by
  constructor
  · exact le_min (le_max_right _ _) h
  · exact min_le_right _ _

/-- C9 witness: the concrete bounds `[-2, 2]` with the concrete generator at
state 3 (a Normal "draw" of 3, clamped to 2). -/
theorem C9_sample_clamped_witness :
    (envC.low ≤ envC.high) ∧
      (envC.low ≤ (ContinuousGymGame.sampleAction envC natRng ⟨0, 0, 0, 1⟩ 3 false).1 ∧
        (ContinuousGymGame.sampleAction envC natRng ⟨0, 0, 0, 1⟩ 3 false).1 ≤ envC.high) :=
  ⟨by norm_num [envC], C9_sample_clamped envC natRng ⟨0, 0, 0, 1⟩ 3 false (by norm_num [envC])⟩

/-! ### C10: `get_copy` preserves each variant's configuration -/

/-- C10: every variant's `get_copy` passes the source's configuration
through unchanged: a continuous game's copy keeps `(mu, sigma)`, a
macro-action game's copy keeps the macro-action table, a multiple-steps
game's copy keeps the repetition count `n`, and an engineered-macro-action
game's copy keeps `(num_actions, action_damping, max_macro_action_len)`. -/
theorem C10_getCopy_preserves_config (rng : RNGModel ρ) (r : ρ)
    (c : ContGameState σ) (m : MacroGameState σ) (ms : MultiStepsState σ)
    (p : PendulumState σ) :
    ((ContinuousGymGame.getCopy rng c r).1.mu = c.mu ∧
        (ContinuousGymGame.getCopy rng c r).1.sigma = c.sigma) ∧
      (GymGameWithMacroActions.getCopy rng m r).1.macroActions = m.macroActions ∧
      (GymGameDoingMultipleStepsInSimulations.getCopy rng ms r).1.n = ms.n ∧
      ((PendulumGameWithEngineeredMacroActions.getCopy rng p r).1.nAct = p.nAct ∧
        (PendulumGameWithEngineeredMacroActions.getCopy rng p r).1.damping = p.damping ∧
        (PendulumGameWithEngineeredMacroActions.getCopy rng p r).1.maxLen = p.maxLen) := by
  exact ⟨⟨rfl, rfl⟩, rfl, rfl, rfl, rfl, rfl⟩

/-! ### C2: copy independence -/

/-- C2: for every game `g` (a live object at a valid heap address) and
`c = g.get_copy()`, calling `c.step(a)` for any action `a` leaves `g`'s
subsequent `step` and `legal_actions` results identical to what they would
have been had `c` never been created: `get_copy` deep-copies the env state
into a fresh cell (`deepcopy(self.env)`, line 144), so stepping the copy
writes only the copy's cell, and neither `step` nor `legal_actions` reads
the global generator (which the copy's creation did advance). -/
theorem C2_copy_independence (env : DiscreteEnv σ) (rng : RNGModel ρ) (w : World σ ρ)
    (g : ℕ) (hg : g < w.next) (a b : ℚ) (simulation : Bool) :
    (DiscreteGymGame.stepW env
        (DiscreteGymGame.stepW env (DiscreteGymGame.getCopyW rng w g).2
          (DiscreteGymGame.getCopyW rng w g).1.1 a).2 g b).1 =
      (DiscreteGymGame.stepW env w g b).1 ∧
    DiscreteGymGame.legalActionsW env
        (DiscreteGymGame.stepW env (DiscreteGymGame.getCopyW rng w g).2
          (DiscreteGymGame.getCopyW rng w g).1.1 a).2 g simulation =
      DiscreteGymGame.legalActionsW env w g simulation := by
  have hne : g ≠ w.next := Nat.ne_of_lt hg
  constructor
  · simp [DiscreteGymGame.stepW, DiscreteGymGame.getCopyW, World.write, hne]
  · rfl

/-- C2 witness: a concrete world with one live game (address 0) over the
concrete environment; copying it, stepping the copy with action 1, then
stepping the original with action 0 gives the same result as stepping the
untouched original. -/
theorem C2_copy_independence_witness :
    (0 < (World.mk (fun _ => 10) 1 0 : World ℕ ℕ).next) ∧
      ((DiscreteGymGame.stepW envA
          (DiscreteGymGame.stepW envA
            (DiscreteGymGame.getCopyW natRng (World.mk (fun _ => 10) 1 0) 0).2
            (DiscreteGymGame.getCopyW natRng (World.mk (fun _ => 10) 1 0) 0).1.1 1).2 0 0).1 =
        (DiscreteGymGame.stepW envA (World.mk (fun _ => 10) 1 0) 0 0).1 ∧
      DiscreteGymGame.legalActionsW envA
          (DiscreteGymGame.stepW envA
            (DiscreteGymGame.getCopyW natRng (World.mk (fun _ => 10) 1 0) 0).2
            (DiscreteGymGame.getCopyW natRng (World.mk (fun _ => 10) 1 0) 0).1.1 1).2 0 false =
        DiscreteGymGame.legalActionsW envA (World.mk (fun _ => 10) 1 0) 0 false) :=
  ⟨Nat.zero_lt_one,
    C2_copy_independence envA natRng (World.mk (fun _ => 10) 1 0) 0 Nat.zero_lt_one 1 0 false⟩

/-! ### C6: all randomness goes through the single global generator -/

/-- C6 counterexample: two live games (addresses 1 and 2) in a concrete
world.  After `g1.set_seed(0)`, the value `g1.sample_action()` returns
differs depending on whether `g2.sample_action()` ran in between — because
`self.rand` is the process-global `numpy.random` for every instance, g2's
draw advances the very state g1 draws from.  This refutes "draws of one
instance are determined by its own seed alone and are unaffected by
operations on other instances". -/
theorem C6_counterexample :
    (DiscreteGymGame.sampleW envB natRng
        (GymGame.setSeedW envB natRng (World.mk (fun _ => 0) 3 0) 1 0) 1 false).1 ≠
      (DiscreteGymGame.sampleW envB natRng
        (DiscreteGymGame.sampleW envB natRng
          (GymGame.setSeedW envB natRng (World.mk (fun _ => 0) 3 0) 1 0) 2 false).2
        1 false).1 := by
  decide

/-- C6 amended: all randomness is routed through the single process-global
generator (`self.rand = numpy.random`, line 26, and the direct
`numpy.random.normal` call, line 161) shared by every instance, not through
a per-instance generator: a `sample_action` draw is a function of the global
generator state and the action space alone — which instance draws is
irrelevant — so draws are reproducible given the global seeding, but an
operation on any other instance advances the shared state and changes this
instance's next draw. -/
theorem C6_global_generator (env : DiscreteEnv σ) (rng : RNGModel ρ) (w : World σ ρ)
    (g1 g2 : ℕ) (simulation : Bool) :
    (DiscreteGymGame.sampleW env rng w g1 simulation).1 =
      (DiscreteGymGame.sampleW env rng w g2 simulation).1 := by
  rfl

/-! ### C1 / C4 / C3 / C8: the macro-action step path

`GymGameWithMacroActions.step` unpacks `super().step(...)` into four names
(`obs, rew, done, _`, lines 195 and 200) although `DiscreteGymGame.step`
returns a three-tuple (lines 97-100, 131-134): every call raises
`ValueError` after the inner `env.step` has run once. -/

/-- Helper: the non-simulation branch of `GymGameWithMacroActions.step`
always raises `ValueError` (line 200 unpacks a 3-tuple into 4 names), after
advancing the env by the one primitive step already taken inside
`super().step(action)`. -/
theorem stepM_nonsim_eq (env : DiscreteEnv σ) (g : MacroGameState σ) (action : ℤ) :
    GymGameWithMacroActions.stepM env g action false =
      ({ g with envState := (DiscreteGymGame.stepImpl env g.envState (action : ℚ)).1 },
        .error .valueError) := by
  rfl

/-- Helper: one iteration of the dynamic macro-action discovery
(`macro_actions` property, lines 244-251) always raises: the rollout calls
`game_copy.step(action)`, which is the macro class's broken step. -/
theorem discoverOne_eq (env : DiscreteEnv σ) (rng : RNGModel ρ) (g : PendulumState σ)
    (action : ℤ) (r : ρ) :
    PendulumGameWithEngineeredMacroActions.discoverOne env rng g action r =
      ((PendulumGameWithEngineeredMacroActions.getCopy rng g r).2, .error .valueError) := by
  rfl

/-- C1 counterexample: the claim's own scenario — a macro-action of 4
primitives each with reward 1 on an environment where `done` fires after the
2nd primitive (`envA` terminates once its counter reaches 2).  The claim
says `step(0, simulation=True)` returns composed reward 1.0 (mean of the
first 2 rewards); the code instead raises `ValueError` on the very first
primitive, because line 195 unpacks the 3-tuple returned by
`DiscreteGymGame.step` into 4 names.  No reward is ever returned. -/
theorem C1_counterexample :
    (GymGameWithMacroActions.stepM envA (MacroGameState.mk 0 0 [[1, 1, 1, 1]]) 0 true).2 =
      Except.error PyError.valueError := by
  rfl

/-- C1 amended: for every macro-action executed via
`step(action, simulation=True)` whose looked-up primitive sequence is
nonempty, the first primitive is applied to the single state and the call
then raises `ValueError` (the 4-name unpacking of a 3-tuple at line 195);
the remaining primitives are never consumed and no averaged reward is
returned.  (With an empty sequence the loop is skipped and
`reward /= len(mac_act)` raises `ZeroDivisionError` instead.) -/
theorem C1_macro_sim_raises (env : DiscreteEnv σ) (g : MacroGameState σ) (action : ℤ)
    (a : ℚ) (rest : List ℚ) (h : pyIndex g.macroActions action = .ok (a :: rest)) :
    GymGameWithMacroActions.stepM env g action true =
      ({ g with envState := (DiscreteGymGame.stepImpl env g.envState a).1 },
        .error .valueError) := by
  simp [GymGameWithMacroActions.stepM, h]

/-- C1 witness: the amended statement evaluated on the concrete 4-primitive
macro-action `[1, 1, 1, 1]`. -/
theorem C1_macro_sim_raises_witness :
    pyIndex (MacroGameState.mk (0 : ℕ) 0 [[1, 1, 1, 1]]).macroActions (0 : ℤ) =
        Except.ok ((1 : ℚ) :: [1, 1, 1]) ∧
      GymGameWithMacroActions.stepM envA (MacroGameState.mk (0 : ℕ) 0 [[1, 1, 1, 1]]) 0 true =
        ({ MacroGameState.mk (0 : ℕ) 0 [[1, 1, 1, 1]] with
            envState :=
              (DiscreteGymGame.stepImpl envA
                (MacroGameState.mk (0 : ℕ) 0 [[1, 1, 1, 1]]).envState 1).1 },
          Except.error PyError.valueError) :=
  ⟨rfl, C1_macro_sim_raises envA (MacroGameState.mk (0 : ℕ) 0 [[1, 1, 1, 1]]) 0 1 [1, 1, 1] rfl⟩

/-- C4: the claim — `step(a, simulation=False)` executes exactly one
primitive action and returns the triple `(observation, reward, done)` — is
the documented contract (`DeepCopyableGame.step`'s docstring, lines 44-54)
and holds for `GymGame`/`DiscreteGymGame`/`ContinuousGymGame`; but for the
macro-action variants the non-simulation branch (line 200) unpacks the
3-tuple into 4 names and raises `ValueError` for EVERY environment, state
and action — after the one primitive step has already advanced the canonical
state.  This theorem evaluates the code on the failing inputs. -/
theorem C4_nonsim_step_raises (env : DiscreteEnv σ) (g : MacroGameState σ) (action : ℤ) :
    (GymGameWithMacroActions.stepM env g action false).2 = Except.error PyError.valueError := by
  rfl

/-- C3 counterexample: a concrete engineered-macro-action game (cap 50) over
the 2-action environment: `macro_actions` raises `ValueError` (the discovery
rollout's very first `game_copy.step(action)` hits the broken unpacking at
line 200), so no macro-action — of length 3, 2 or any other — is ever
generated, refuting the claim's concrete scenarios. -/
theorem C3_counterexample :
    (PendulumGameWithEngineeredMacroActions.macroActionsProp envA natRng
        (PendulumState.mk 0 0 2 1 50) 0).2 = Except.error PyError.valueError := by
  rfl

/-- C3 amended: for every environment with at least one primitive action,
the dynamically generated `macro_actions` property raises `ValueError` (its
rollout calls the macro game's non-simulation step, which unpacks a 3-tuple
into 4 names at line 200); the sign-flip / cap termination logic of the
`while` loop (lines 248-250) is never reached.  (Were the unpacking
repaired, that loop's `it <= max_macro_action_len` bound would still admit
macro-actions of length cap + 1, e.g. length 3 under cap 2.) -/
theorem C3_macro_generation_raises (env : DiscreteEnv σ) (rng : RNGModel ρ)
    (g : PendulumState σ) (r : ρ) (h : 1 ≤ env.n) :
    (PendulumGameWithEngineeredMacroActions.macroActionsProp env rng g r).2 =
      Except.error PyError.valueError := by
  obtain ⟨m, hm⟩ := Nat.exists_eq_succ_of_ne_zero (Nat.one_le_iff_ne_zero.mp h)
  simp [PendulumGameWithEngineeredMacroActions.macroActionsProp, hm,
    List.range_succ_eq_map, PendulumGameWithEngineeredMacroActions.discoverAll,
    discoverOne_eq]

/-- C3 witness: the amended statement evaluated on the concrete 3-action
environment with cap 2. -/
theorem C3_macro_generation_raises_witness :
    1 ≤ envB.n ∧
      (PendulumGameWithEngineeredMacroActions.macroActionsProp envB natRng
          (PendulumState.mk 0 0 3 1 2) 5).2 = Except.error PyError.valueError :=
  ⟨by decide, C3_macro_generation_raises envB natRng (PendulumState.mk 0 0 3 1 2) 5 (by decide)⟩

/-- C8 counterexample: a macro-action game with an empty macro-action table:
`legal_actions(simulation=True)` returns the empty list normally
(lines 180-183 — `[i for i in range(len([]))]`); no `NoLegalActions` error
is raised, and indeed no such exception exists anywhere in the source. -/
theorem C8_counterexample :
    GymGameWithMacroActions.legalActions envA (MacroGameState.mk 0 7 []) true =
      ([] : List ℕ) := by
  rfl

/-- C8 amended: on every macro-action variant whose table is empty,
`legal_actions(simulation=True)` returns the empty list (returning
normally); the source defines no `NoLegalActions` error and has no raise
statement on this path. -/
theorem C8_empty_table_returns_nil (env : DiscreteEnv σ) (g : MacroGameState σ)
    (h : g.macroActions = []) :
    GymGameWithMacroActions.legalActions env g true = ([] : List ℕ) := by
  simp [GymGameWithMacroActions.legalActions, h]

/-- C8 witness: the amended statement on a concrete empty-table game over
the 3-action environment. -/
theorem C8_empty_table_returns_nil_witness :
    (MacroGameState.mk (5 : ℕ) 3 []).macroActions = ([] : List (List ℚ)) ∧
      GymGameWithMacroActions.legalActions envB (MacroGameState.mk (5 : ℕ) 3 []) true =
        ([] : List ℕ) :=
  ⟨rfl, C8_empty_table_returns_nil envB (MacroGameState.mk (5 : ℕ) 3 []) rfl⟩
